import Mathlib

set_option maxHeartbeats 1000000

/- Shallow embedding of the STGCN training pipeline (main.py).

   Numeric values carried by the pipeline are modelled over the rationals;
   the exact real functions applied by numpy (exp, sqrt) are modelled by
   the corresponding Mathlib real functions, and numpy NaN entries are
   modelled as `none` in `Option` valued matrices. -/

/- Configuration constants, from the configuration part of main.py. -/

def num_of_vertices : ℕ := 307

def orders_of_cheb : ℕ := 3

def epsilon : ℚ := 1 / 2

def num_points_for_train : ℕ := 12

def num_points_for_predict : ℕ := 1

def learning_rate : ℚ := 1 / 100

def decay_rate : ℚ := 7 / 10

def decay_interval : ℕ := 5

/- ----- train_model: checkpointing (main.py lines 199-201) --------------
   In the loop `for epoch in range(epochs)`, after epoch `epoch` (0-based),
   when `(epoch + 1) % 5 == 0` the parameters are saved to the file
   `'stgcn_params/stgcn.params_%s' % (epoch)`. -/

def checkpointFilename (epoch : ℕ) : String :=
  "stgcn_params/stgcn.params_" ++ toString epoch

def savedEpochIndices (numEpochs : ℕ) : List ℕ :=
  (List.range numEpochs).filter (fun e => (e + 1) % 5 == 0)

def savedCheckpoints (numEpochs : ℕ) : List String :=
  (savedEpochIndices numEpochs).map checkpointFilename

/- ----- train_model: learning-rate decay (main.py lines 203-204) --------
   At the end of epoch `epoch` (after all of that epoch's optimizer steps),
   when `(epoch + 1) % decay_interval == 0` the trainer's learning rate is
   multiplied by `decay_rate`.  `lrAfterEpochs a r interval n` is the
   learning rate held by the trainer after `n` complete epochs, starting
   from rate `a` with decay factor `r`. -/

def lrAfterEpochs (a r : ℚ) (interval : ℕ) : ℕ → ℚ
  | 0 => a
  | n + 1 =>
      if (n + 1) % interval = 0 then lrAfterEpochs a r interval n * r
      else lrAfterEpochs a r interval n

/- ----- Chebyshev polynomial basis (main.py lines 211-212) -------------- -/

def chebAux {n : ℕ} (L : Matrix (Fin n) (Fin n) ℚ) : ℕ → Matrix (Fin n) (Fin n) ℚ
  | 0 => 1
  | 1 => L
  | k + 2 => (2 : ℚ) • (L * chebAux L (k + 1)) - chebAux L k

/-- Modelled from the spec: `cheb_polynomial` is imported from `lib.utils`,
which is not among the sources; the spec (§3, §4.2) defines the basis as the
ordered sequence T0 = I, T1 = L, Tk = 2 L T(k-1) - T(k-2), with exactly K
elements. -/
def cheb_polynomial {n : ℕ} (L : Matrix (Fin n) (Fin n) ℚ) (K : ℕ) :
    List (Matrix (Fin n) (Fin n) ℚ) :=
  (List.range K).map (chebAux L)

def degreeMatrix {n : ℕ} (A : Matrix (Fin n) (Fin n) ℚ) : Matrix (Fin n) (Fin n) ℚ :=
  Matrix.diagonal (fun i => ∑ j, A i j)

/-- Modelled from the spec: `scaled_Laplacian` is imported from `lib.utils`,
which is not among the sources; the spec (§4.2) defines it as
2L/lambda_max - I with L = D - A the combinatorial Laplacian and lambda_max
its largest eigenvalue, produced by an external eigensolver and therefore
taken here as a parameter. -/
def scaled_Laplacian {n : ℕ} (A : Matrix (Fin n) (Fin n) ℚ) (lam : ℚ) :
    Matrix (Fin n) (Fin n) ℚ :=
  (2 / lam) • (degreeMatrix A - A) - 1

/- ----- graph signal tensors and build_dataset (main.py lines 106-132) --
   A numpy 3-axis array is modelled as its shape together with its entry
   function; a slice keeps the entry function (offset by the slice start)
   and records the numpy slice length min(b, d) - min(a, d) on the sliced
   axis.  `Arr3` is indexed (axis0, axis1, axis2); the graph signal matrix
   X is (vertices, features, time). -/

structure Arr3 where
  d1 : ℕ
  d2 : ℕ
  d3 : ℕ
  entry : ℕ → ℕ → ℕ → ℚ

structure Arr2 where
  d1 : ℕ
  d2 : ℕ
  entry : ℕ → ℕ → ℚ

/-- X[:, :, a:b] -/
def Arr3.sliceTime (X : Arr3) (a b : ℕ) : Arr3 :=
  ⟨X.d1, X.d2, min b X.d3 - min a X.d3, fun i j k => X.entry i j (a + k)⟩

/-- .transpose((1, 0, 2)) -/
def Arr3.transpose102 (X : Arr3) : Arr3 :=
  ⟨X.d2, X.d1, X.d3, fun i j k => X.entry j i k⟩

/-- X[:, 0, a:b] -/
def Arr3.sliceFeat0 (X : Arr3) (a b : ℕ) : Arr2 :=
  ⟨X.d1, min b X.d3 - min a X.d3, fun i k => X.entry i 0 (a + k)⟩

/-- The sample with window start index i: history
X[:, :, i:i+H].transpose((1,0,2)) and target X[:, 0, i+H:i+H+P]. -/
def windowSample (X : Arr3) (H P i : ℕ) : Arr3 × Arr2 :=
  ((X.sliceTime i (i + H)).transpose102, X.sliceFeat0 (i + H) (i + H + P))

/-- Number of window start indices: `range(T - (H+P) + 1)` over the
integers, empty when T < H + P; as a natural number, T + 1 - (H + P). -/
def numWindows (T H P : ℕ) : ℕ := T + 1 - (H + P)

def build_dataset (X : Arr3) (H P : ℕ) : List (Arr3 × Arr2) :=
  (List.range (numWindows X.d3 H P)).map (windowSample X H P)

def arr3Zero : Arr3 := ⟨0, 0, 0, fun _ _ _ => 0⟩

def arr2Zero : Arr2 := ⟨0, 0, fun _ _ => 0⟩

def samplePairZero : Arr3 × Arr2 := (arr3Zero, arr2Zero)

/- ----- train/val/test split (main.py lines 214-224) --------------------
   split_line1 = int(X.shape[2] * 0.6) and split_line2 = int(X.shape[2] * 0.8)
   are modelled in exact arithmetic as floor(3T/5) and floor(4T/5). -/

def split_line1 (T : ℕ) : ℕ := 3 * T / 5

def split_line2 (T : ℕ) : ℕ := 4 * T / 5

def train_original_data (X : Arr3) : Arr3 := X.sliceTime 0 (split_line1 X.d3)

def val_original_data (X : Arr3) : Arr3 :=
  X.sliceTime (split_line1 X.d3) (split_line2 X.d3)

def test_original_data (X : Arr3) : Arr3 := X.sliceTime (split_line2 X.d3) X.d3

/- ----- Z-score normalization (main.py lines 226-237) -------------------
   sklearn's StandardScaler on the (num_samples, features*vertices*T)
   reshaped view: per-column (per flattened position) mean and population
   variance are fitted; transform is (x - mean) / scale with
   scale = sqrt(var), where a zero variance yields scale 1
   (sklearn handle_zeros_in_scale). -/

def listMean (l : List ℚ) : ℚ := l.sum / l.length

def listVar (l : List ℚ) : ℚ :=
  ((l.map (fun x => (x - listMean l) ^ 2)).sum) / l.length

def colOf (rows : List (ℕ → ℚ)) (j : ℕ) : List ℚ := rows.map (fun r => r j)

structure FittedScaler where
  mean : ℕ → ℚ
  variance : ℕ → ℚ

def fitScaler (rows : List (ℕ → ℚ)) : FittedScaler :=
  ⟨fun j => listMean (colOf rows j), fun j => listVar (colOf rows j)⟩

noncomputable def scalerScale (v : ℚ) : ℝ :=
  if v = 0 then 1 else Real.sqrt (v : ℝ)

noncomputable def scalerTransformRow (s : FittedScaler) (r : ℕ → ℚ) : ℕ → ℝ :=
  fun j => ((r j : ℝ) - (s.mean j : ℝ)) / scalerScale (s.variance j)

/-- `.reshape(num_samples, -1)` of one history sample of shape
(d1, d2, d3), in C order: position p holds entry
(p / (d2*d3), (p % (d2*d3)) / d3, p % d3). -/
def flattenSample (h : Arr3) : ℕ → ℚ :=
  fun pos => h.entry (pos / (h.d2 * h.d3)) (pos % (h.d2 * h.d3) / h.d3) (pos % h.d3)

structure NormalizedRun where
  transformer : FittedScaler
  trainNorm : List (ℕ → ℝ)
  valNorm : List (ℕ → ℝ)
  testNorm : List (ℕ → ℝ)

/-- The Z-score preprocessing block: `transformer.fit_transform` on the
training histories, then `transformer.transform` (same fitted statistics)
on the validation and testing histories. -/
noncomputable def runNormalization (train val test : List Arr3) : NormalizedRun :=
  ⟨fitScaler (train.map flattenSample),
    train.map (fun x => scalerTransformRow (fitScaler (train.map flattenSample)) (flattenSample x)),
    val.map (fun x => scalerTransformRow (fitScaler (train.map flattenSample)) (flattenSample x)),
    test.map (fun x => scalerTransformRow (fitScaler (train.map flattenSample)) (flattenSample x))⟩

/- ----- adjacency matrix construction (main.py lines 70-87) -------------
   The distance file rows are (x, y, dis) triples.  The loop performs
   A[x, y] = dis; A[y, x] = dis sequentially; an index at or beyond
   num_of_vertices makes numpy raise IndexError.  Then
   var = np.var(A.flatten()[nonzero]) and A = exp(-A**2 / var), with
   entries below epsilon zeroed.  numpy float corner cases are modelled
   exactly: when no entry is nonzero, np.var of the empty slice is NaN and
   every kernel entry is NaN (`none`); when the nonzero entries all agree,
   var = 0, and exp(-d^2/0) = exp(-inf) = 0 for d /= 0 while
   exp(-0/0) = exp(NaN) = NaN for d = 0; a NaN entry fails the `< epsilon`
   comparison and is left in place. -/

def setEntry (A : ℕ → ℕ → ℚ) (x y : ℕ) (d : ℚ) : ℕ → ℕ → ℚ :=
  fun i j => if i = x ∧ j = y then d else A i j

/-- A[x, y] = dis followed by A[y, x] = dis. -/
def updatePair (A : ℕ → ℕ → ℚ) (x y : ℕ) (d : ℚ) : ℕ → ℕ → ℚ :=
  setEntry (setEntry A x y d) y x d

def buildA (ts : List (ℕ × ℕ × ℚ)) : ℕ → ℕ → ℚ :=
  ts.foldl (fun A t => updatePair A t.1 t.2.1 t.2.2) (fun _ _ => 0)

/-- numpy accepts the assignment A[x, y] = dis only for x, y below the
matrix dimension (indices are nonnegative integers here). -/
def tripleOK (n : ℕ) (t : ℕ × ℕ × ℚ) : Bool :=
  decide (t.1 < n) && decide (t.2.1 < n)

/-- The entries of A.flatten() that are nonzero, in row-major order. -/
def nonzeroEntries (n : ℕ) (A : ℕ → ℕ → ℚ) : List ℚ :=
  (((List.range n).map (fun i => (List.range n).map (fun j => A i j))).flatten).filter
    (fun q => q != 0)

/-- One entry of exp(-A**2 / var) after thresholding, with `none` playing
the role of numpy NaN (see the block comment above for the var = NaN and
var = 0 cases). -/
noncomputable def kernelEntry (d : ℚ) (nz : List ℚ) (eps : ℚ) : Option ℝ :=
  if nz = [] then none
  else if listVar nz = 0 then (if d = 0 then none else some 0)
  else
    some (if Real.exp (-((d : ℝ)) ^ 2 / ((listVar nz : ℚ) : ℝ)) < (eps : ℝ) then 0
      else Real.exp (-((d : ℝ)) ^ 2 / ((listVar nz : ℚ) : ℝ)))

noncomputable def normalizeA (n : ℕ) (A : ℕ → ℕ → ℚ) (eps : ℚ) : ℕ → ℕ → Option ℝ :=
  fun i j => kernelEntry (A i j) (nonzeroEntries n A) eps

/-- The adjacency-matrix half of data_preprocess: assemble the distance
matrix (numpy IndexError when a vertex index is out of range), then apply
the Gaussian kernel and the epsilon threshold. -/
noncomputable def data_preprocess_A (n : ℕ) (ts : List (ℕ × ℕ × ℚ)) (eps : ℚ) :
    Except String (ℕ → ℕ → Option ℝ) :=
  if ts.all (tripleOK n) then Except.ok (normalizeA n (buildA ts) eps)
  else Except.error ("IndexError")

/-- Entry (i, j) of the returned matrix, or `none` at the outer level when
data_preprocess raised instead of returning. -/
noncomputable def entryAt (n : ℕ) (ts : List (ℕ × ℕ × ℚ)) (eps : ℚ) (i j : ℕ) :
    Option (Option ℝ) :=
  match data_preprocess_A n ts eps with
  | Except.ok f => some (f i j)
  | Except.error _ => none

def exceptIsOk (r : Except String (ℕ → ℕ → Option ℝ)) : Bool :=
  match r with
  | Except.ok _ => true
  | Except.error _ => false

/- ===================== theorems ===================== -/

lemma lrAfterEpochs_formula (a r : ℚ) (interval : ℕ) :
    ∀ n : ℕ, lrAfterEpochs a r interval n = a * r ^ (n / interval)
  | 0 => by simp [lrAfterEpochs]
  | n + 1 => by
    rcases Nat.eq_zero_or_pos interval with hI | hI
    · subst hI
      rw [lrAfterEpochs, if_neg (by simp), lrAfterEpochs_formula a r 0 n]
      simp
    · by_cases h : (n + 1) % interval = 0
      · rw [lrAfterEpochs, if_pos h, lrAfterEpochs_formula a r interval n,
          Nat.succ_div, if_pos (Nat.dvd_of_mod_eq_zero h), pow_succ]
        ring
      · rw [lrAfterEpochs, if_neg h, lrAfterEpochs_formula a r interval n,
          Nat.succ_div, if_neg (fun hd => h (Nat.eq_zero_of_dvd_of_lt hd |> fun _ => by
            exact (Nat.mod_eq_zero_of_dvd hd)))]
        simp

/-- C5: the learning rate is multiplied by `decay_rate` at the end of every
`decay_interval`-th epoch, after that epoch's optimizer steps, compounding
across intervals: after n epochs the rate is a * r ^ (n / interval); in
particular, starting from learning_rate = 1e-2 with decay_rate = 0.7 and
decay_interval = 5, the rate after 10 epochs equals 1e-2 * 0.7 ^ 2. -/
theorem c5_lr_decay :
    (∀ (a r : ℚ) (interval n : ℕ),
        lrAfterEpochs a r interval n = a * r ^ (n / interval)) ∧
    lrAfterEpochs learning_rate decay_rate decay_interval 10 =
      learning_rate * decay_rate ^ 2 :=
  ⟨fun a r interval n => lrAfterEpochs_formula a r interval n,
    (lrAfterEpochs_formula learning_rate decay_rate decay_interval 10).trans
      (by norm_num [decay_interval])⟩

/-- C4 counterexample: in a 12-epoch run the checkpoint files are tagged 4
and 9 (the 0-based loop indices), not 5 and 10: no file name embeds 5 or
10. -/
theorem c4_counterexample :
    savedCheckpoints 12 =
      ["stgcn_params/stgcn.params_4", "stgcn_params/stgcn.params_9"] ∧
    ¬ ("stgcn_params/stgcn.params_5" ∈ savedCheckpoints 12) ∧
    ¬ ("stgcn_params/stgcn.params_10" ∈ savedCheckpoints 12) := by
  refine ⟨by decide, by decide, by decide⟩

/-- C4 (amended): checkpoints are written exactly at every 5-epoch boundary
(after the epochs whose 0-based index e satisfies (e+1) % 5 = 0), each file
name embedding the 0-based epoch index; a 12-epoch run saves exactly at
indices 4 and 9 (the 5th and 10th epochs) and nowhere else. -/
theorem c4_amended_checkpoints :
    savedEpochIndices 12 = [4, 9] ∧
    savedCheckpoints 12 = [checkpointFilename 4, checkpointFilename 9] ∧
    (∀ numEpochs e : ℕ,
        e ∈ savedEpochIndices numEpochs ↔ e < numEpochs ∧ (e + 1) % 5 = 0) := by
  refine ⟨by decide, by decide, ?_⟩
  intro numEpochs e
  simp [savedEpochIndices, List.mem_filter, List.mem_range]

/-- C8: for every adjacency matrix A (and every scaling eigenvalue lam fed
to the scaled Laplacian), the Chebyshev basis built from the scaled
Laplacian has exactly `orders_of_cheb` elements, its first element is the
identity matrix, its second is the scaled Laplacian itself, and the third
satisfies the three-term recurrence T2 = 2 L T1 - T0. -/
theorem c8_cheb_basis {n : ℕ} (A : Matrix (Fin n) (Fin n) ℚ) (lam : ℚ) :
    (cheb_polynomial (scaled_Laplacian A lam) orders_of_cheb).length = orders_of_cheb ∧
    (cheb_polynomial (scaled_Laplacian A lam) orders_of_cheb).getD 0 0 = 1 ∧
    (cheb_polynomial (scaled_Laplacian A lam) orders_of_cheb).getD 1 0 =
      scaled_Laplacian A lam ∧
    (cheb_polynomial (scaled_Laplacian A lam) orders_of_cheb).getD 2 0 =
      (2 : ℚ) • (scaled_Laplacian A lam *
          (cheb_polynomial (scaled_Laplacian A lam) orders_of_cheb).getD 1 0) -
        (cheb_polynomial (scaled_Laplacian A lam) orders_of_cheb).getD 0 0 := by
  refine ⟨rfl, rfl, rfl, ?_⟩
  show chebAux (scaled_Laplacian A lam) 2 = _
  rw [chebAux]
  rfl

lemma build_dataset_getD (X : Arr3) (H P k : ℕ) (hk : k < numWindows X.d3 H P) :
    (build_dataset X H P).getD k samplePairZero = windowSample X H P k := by
  unfold build_dataset
  rw [List.getD_eq_getElem _ _ (by simpa using hk)]
  simp

/-- C2: for every graph signal tensor X with T = X.d3 time steps and window
parameters H, P with H + P ≤ T, build_dataset returns exactly
T - (H + P) + 1 samples; the k-th sample is the window starting at index k
(increasing start order, stride 1), its history has shape
(features, vertices, H) and its target has shape (vertices, P). -/
theorem c2_build_dataset_windows (X : Arr3) (H P k : ℕ)
    (hHP : H + P ≤ X.d3) (hk : k < X.d3 - (H + P) + 1) :
    (build_dataset X H P).length = X.d3 - (H + P) + 1 ∧
    (build_dataset X H P).getD k samplePairZero = windowSample X H P k ∧
    ((build_dataset X H P).getD k samplePairZero).1.d1 = X.d2 ∧
    ((build_dataset X H P).getD k samplePairZero).1.d2 = X.d1 ∧
    ((build_dataset X H P).getD k samplePairZero).1.d3 = H ∧
    ((build_dataset X H P).getD k samplePairZero).2.d1 = X.d1 ∧
    ((build_dataset X H P).getD k samplePairZero).2.d2 = P := by
  have hk' : k < numWindows X.d3 H P := by
    unfold numWindows; omega
  have hlen : (build_dataset X H P).length = X.d3 - (H + P) + 1 := by
    unfold build_dataset numWindows
    simp
    omega
  have hget := build_dataset_getD X H P k hk'
  refine ⟨hlen, hget, ?_, ?_, ?_, ?_, ?_⟩ <;>
    rw [hget] <;>
    simp only [windowSample, Arr3.sliceTime, Arr3.transpose102, Arr3.sliceFeat0] <;>
    unfold numWindows at hk' <;>
    omega

/-- C2 witness at a concrete tensor (2 vertices, 3 features, 4 time steps)
with H = 2, P = 1, k = 1. -/
theorem c2_witness :
    2 + 1 ≤ (Arr3.mk 2 3 4 (fun v f t => 100 * v + 10 * f + t)).d3 ∧
    1 < (Arr3.mk 2 3 4 (fun v f t => 100 * v + 10 * f + t)).d3 - (2 + 1) + 1 ∧
    ((build_dataset (Arr3.mk 2 3 4 (fun v f t => 100 * v + 10 * f + t)) 2 1).length =
        (Arr3.mk 2 3 4 (fun v f t => 100 * v + 10 * f + t)).d3 - (2 + 1) + 1 ∧
      (build_dataset (Arr3.mk 2 3 4 (fun v f t => 100 * v + 10 * f + t)) 2 1).getD 1
          samplePairZero =
        windowSample (Arr3.mk 2 3 4 (fun v f t => 100 * v + 10 * f + t)) 2 1 1 ∧
      ((build_dataset (Arr3.mk 2 3 4 (fun v f t => 100 * v + 10 * f + t)) 2 1).getD 1
            samplePairZero).1.d1 =
        (Arr3.mk 2 3 4 (fun v f t => 100 * v + 10 * f + t)).d2 ∧
      ((build_dataset (Arr3.mk 2 3 4 (fun v f t => 100 * v + 10 * f + t)) 2 1).getD 1
            samplePairZero).1.d2 =
        (Arr3.mk 2 3 4 (fun v f t => 100 * v + 10 * f + t)).d1 ∧
      ((build_dataset (Arr3.mk 2 3 4 (fun v f t => 100 * v + 10 * f + t)) 2 1).getD 1
            samplePairZero).1.d3 = 2 ∧
      ((build_dataset (Arr3.mk 2 3 4 (fun v f t => 100 * v + 10 * f + t)) 2 1).getD 1
            samplePairZero).2.d1 =
        (Arr3.mk 2 3 4 (fun v f t => 100 * v + 10 * f + t)).d1 ∧
      ((build_dataset (Arr3.mk 2 3 4 (fun v f t => 100 * v + 10 * f + t)) 2 1).getD 1
            samplePairZero).2.d2 = 1) :=
  ⟨by decide, by decide,
    c2_build_dataset_windows (Arr3.mk 2 3 4 (fun v f t => 100 * v + 10 * f + t)) 2 1 1
      (by decide) (by decide)⟩

/-- C3: the target of the k-th sample is the slice X[:, 0, k+H : k+H+P] of
the input tensor (entrywise: only feature channel 0 contributes), while the
history carries every feature channel f at entry (f, v, t) = X[v, f, k+t]. -/
theorem c3_target_feature_zero (X : Arr3) (H P k v p f t : ℕ)
    (hk : k < numWindows X.d3 H P) :
    ((build_dataset X H P).getD k samplePairZero).2.entry v p =
      X.entry v 0 (k + H + p) ∧
    ((build_dataset X H P).getD k samplePairZero).1.entry f v t =
      X.entry v f (k + t) := by
  rw [build_dataset_getD X H P k hk]
  exact ⟨rfl, rfl⟩

/-- C3 witness at the same concrete tensor, sample k = 0, entry
(v, p) = (1, 0) of the target and (f, v, t) = (2, 1, 1) of the history. -/
theorem c3_witness :
    0 < numWindows (Arr3.mk 2 3 4 (fun v f t => 100 * v + 10 * f + t)).d3 2 1 ∧
    (((build_dataset (Arr3.mk 2 3 4 (fun v f t => 100 * v + 10 * f + t)) 2 1).getD 0
          samplePairZero).2.entry 1 0 =
        (Arr3.mk 2 3 4 (fun v f t => 100 * v + 10 * f + t)).entry 1 0 (0 + 2 + 0) ∧
      ((build_dataset (Arr3.mk 2 3 4 (fun v f t => 100 * v + 10 * f + t)) 2 1).getD 0
          samplePairZero).1.entry 2 1 1 =
        (Arr3.mk 2 3 4 (fun v f t => 100 * v + 10 * f + t)).entry 1 2 (0 + 1)) :=
  ⟨by decide,
    c3_target_feature_zero (Arr3.mk 2 3 4 (fun v f t => 100 * v + 10 * f + t)) 2 1 0 1 0 2 1
      (by decide)⟩

/-- C6: the fitted normalization statistics are a function of the training
partition only and are applied unchanged to the validation and test
partitions: two runs sharing the training data share the fitted transformer
exactly and transform any given sample identically, and the validation/test
outputs are the training-fitted transform mapped over those partitions. -/
theorem c6_no_leakage (train val1 test1 val2 test2 : List Arr3) (x : Arr3) (j : ℕ) :
    (runNormalization train val1 test1).transformer =
      (runNormalization train val2 test2).transformer ∧
    (runNormalization train val1 test1).transformer =
      fitScaler (train.map flattenSample) ∧
    scalerTransformRow (runNormalization train val1 test1).transformer (flattenSample x) j =
      scalerTransformRow (runNormalization train val2 test2).transformer (flattenSample x) j ∧
    (runNormalization train val1 test1).valNorm =
      val1.map (fun s =>
        scalerTransformRow (fitScaler (train.map flattenSample)) (flattenSample s)) ∧
    (runNormalization train val1 test1).testNorm =
      test1.map (fun s =>
        scalerTransformRow (fitScaler (train.map flattenSample)) (flattenSample s)) :=
  ⟨rfl, rfl, rfl, rfl, rfl⟩

/-- C7: the train/validation/test partitions are the contiguous,
non-overlapping time slices [0, floor(0.6 T)), [floor(0.6 T), floor(0.8 T)),
[floor(0.8 T), T) of the signal, and every sample window built from a
partition lies entirely inside that partition: for any in-window offset
t < H + P of a valid window start, the absolute time index stays strictly
below the partition's upper boundary. -/
theorem c7_partition_split (X : Arr3) (H P kt kv ks t v f : ℕ)
    (hkt : kt < numWindows (train_original_data X).d3 H P)
    (hkv : kv < numWindows (val_original_data X).d3 H P)
    (hks : ks < numWindows (test_original_data X).d3 H P)
    (ht : t < H + P) :
    (train_original_data X).d3 = 3 * X.d3 / 5 ∧
    (val_original_data X).d3 = 4 * X.d3 / 5 - 3 * X.d3 / 5 ∧
    (test_original_data X).d3 = X.d3 - 4 * X.d3 / 5 ∧
    (train_original_data X).entry v f t = X.entry v f (0 + t) ∧
    (val_original_data X).entry v f t = X.entry v f (split_line1 X.d3 + t) ∧
    (test_original_data X).entry v f t = X.entry v f (split_line2 X.d3 + t) ∧
    kt + t < split_line1 X.d3 ∧
    split_line1 X.d3 + (kv + t) < split_line2 X.d3 ∧
    split_line2 X.d3 + (ks + t) < X.d3 := by
  refine ⟨?_, ?_, ?_, rfl, rfl, rfl, ?_, ?_, ?_⟩ <;>
    simp only [train_original_data, val_original_data, test_original_data,
      Arr3.sliceTime, numWindows, split_line1, split_line2] at * <;>
    omega

/-- C7 witness at a 100-step series with H = 12, P = 1: the partitions have
lengths 60/20/20 and the first window of each partition stays inside it. -/
theorem c7_witness :
    0 < numWindows (train_original_data (Arr3.mk 1 1 100 (fun _ _ _ => 0))).d3 12 1 ∧
    0 < numWindows (val_original_data (Arr3.mk 1 1 100 (fun _ _ _ => 0))).d3 12 1 ∧
    0 < numWindows (test_original_data (Arr3.mk 1 1 100 (fun _ _ _ => 0))).d3 12 1 ∧
    0 < 12 + 1 ∧
    ((train_original_data (Arr3.mk 1 1 100 (fun _ _ _ => 0))).d3 =
        3 * (Arr3.mk 1 1 100 (fun _ _ _ => 0)).d3 / 5 ∧
      (val_original_data (Arr3.mk 1 1 100 (fun _ _ _ => 0))).d3 =
        4 * (Arr3.mk 1 1 100 (fun _ _ _ => 0)).d3 / 5 -
          3 * (Arr3.mk 1 1 100 (fun _ _ _ => 0)).d3 / 5 ∧
      (test_original_data (Arr3.mk 1 1 100 (fun _ _ _ => 0))).d3 =
        (Arr3.mk 1 1 100 (fun _ _ _ => 0)).d3 -
          4 * (Arr3.mk 1 1 100 (fun _ _ _ => 0)).d3 / 5 ∧
      (train_original_data (Arr3.mk 1 1 100 (fun _ _ _ => 0))).entry 0 0 0 =
        (Arr3.mk 1 1 100 (fun _ _ _ => 0)).entry 0 0 (0 + 0) ∧
      (val_original_data (Arr3.mk 1 1 100 (fun _ _ _ => 0))).entry 0 0 0 =
        (Arr3.mk 1 1 100 (fun _ _ _ => 0)).entry 0 0
          (split_line1 (Arr3.mk 1 1 100 (fun _ _ _ => 0)).d3 + 0) ∧
      (test_original_data (Arr3.mk 1 1 100 (fun _ _ _ => 0))).entry 0 0 0 =
        (Arr3.mk 1 1 100 (fun _ _ _ => 0)).entry 0 0
          (split_line2 (Arr3.mk 1 1 100 (fun _ _ _ => 0)).d3 + 0) ∧
      0 + 0 < split_line1 (Arr3.mk 1 1 100 (fun _ _ _ => 0)).d3 ∧
      split_line1 (Arr3.mk 1 1 100 (fun _ _ _ => 0)).d3 + (0 + 0) <
        split_line2 (Arr3.mk 1 1 100 (fun _ _ _ => 0)).d3 ∧
      split_line2 (Arr3.mk 1 1 100 (fun _ _ _ => 0)).d3 + (0 + 0) <
        (Arr3.mk 1 1 100 (fun _ _ _ => 0)).d3) :=
  ⟨by decide, by decide, by decide, by decide,
    c7_partition_split (Arr3.mk 1 1 100 (fun _ _ _ => 0)) 12 1 0 0 0 0 0 0
      (by decide) (by decide) (by decide) (by decide)⟩

lemma updatePair_symm (A : ℕ → ℕ → ℚ) (x y : ℕ) (d : ℚ)
    (h : ∀ i j, A i j = A j i) (i j : ℕ) :
    updatePair A x y d i j = updatePair A x y d j i := by
  simp only [updatePair, setEntry]
  split_ifs <;> first | rfl | exact h i j | tauto

lemma foldA_symm (ts : List (ℕ × ℕ × ℚ)) :
    ∀ A : ℕ → ℕ → ℚ, (∀ i j, A i j = A j i) →
      ∀ i j, ts.foldl (fun B t => updatePair B t.1 t.2.1 t.2.2) A i j =
        ts.foldl (fun B t => updatePair B t.1 t.2.1 t.2.2) A j i := by
  induction ts with
  | nil => exact fun A h i j => h i j
  | cons t rest ih =>
      intro A h i j
      exact ih (updatePair A t.1 t.2.1 t.2.2) (updatePair_symm A t.1 t.2.1 t.2.2 h) i j

lemma buildA_symm (ts : List (ℕ × ℕ × ℚ)) (i j : ℕ) :
    buildA ts i j = buildA ts j i := by
  unfold buildA
  exact foldA_symm ts (fun _ _ => 0) (fun _ _ => rfl) i j

lemma updatePair_untouched (A : ℕ → ℕ → ℚ) (x y i j : ℕ) (d : ℚ)
    (hne : ¬((x = i ∧ y = j) ∨ (x = j ∧ y = i))) :
    updatePair A x y d i j = A i j := by
  simp only [updatePair, setEntry]
  rw [if_neg (fun hc => hne (Or.inr ⟨hc.2.symm, hc.1.symm⟩)),
    if_neg (fun hc => hne (Or.inl ⟨hc.1.symm, hc.2.symm⟩))]

lemma foldA_untouched (ts : List (ℕ × ℕ × ℚ)) :
    ∀ A : ℕ → ℕ → ℚ, ∀ i j : ℕ,
      (∀ t ∈ ts, ¬((t.1 = i ∧ t.2.1 = j) ∨ (t.1 = j ∧ t.2.1 = i))) →
      ts.foldl (fun B t => updatePair B t.1 t.2.1 t.2.2) A i j = A i j := by
  induction ts with
  | nil => intro A i j _; rfl
  | cons t rest ih =>
      intro A i j h
      rw [List.foldl_cons, ih (updatePair A t.1 t.2.1 t.2.2) i j
        (fun s hs => h s (List.mem_cons_of_mem t hs)),
        updatePair_untouched A t.1 t.2.1 i j t.2.2 (h t (List.mem_cons_self t rest))]

lemma nonzeroEntries_concrete :
    nonzeroEntries 3 (buildA [(0, 1, (1 : ℚ)), (0, 2, 2)]) = [1, 2, 1, 2] := by
  decide

lemma listVar_concrete :
    listVar (nonzeroEntries 3 (buildA [(0, 1, (1 : ℚ)), (0, 2, 2)])) ≠ 0 := by
  rw [nonzeroEntries_concrete]
  norm_num [listVar, listMean]

lemma epsilon_le_one : epsilon ≤ 1 := by norm_num [epsilon]

lemma kernelEntry_zero (nz : List ℚ) (eps : ℚ) (hnz : nz ≠ [])
    (hv : listVar nz ≠ 0) (heps : eps ≤ 1) : kernelEntry 0 nz eps = some 1 := by
  unfold kernelEntry
  rw [if_neg hnz, if_neg hv]
  have h0 : -(((0 : ℚ) : ℝ)) ^ 2 / ((listVar nz : ℚ) : ℝ) = 0 := by norm_num
  rw [h0, Real.exp_zero, if_neg (by rw [not_lt]; exact_mod_cast heps)]

/-- C1 counterexample: for the concrete valid distance input
[(0,1,1), (0,2,2)] on 3 vertices with the repository's epsilon = 1/2, the
returned matrix has A[0][0] = 1, not 0: the Gaussian kernel sends the zero
diagonal to exp(0) = 1 and 1 survives the threshold. -/
theorem c1_counterexample :
    entryAt 3 [(0, 1, (1 : ℚ)), (0, 2, 2)] epsilon 0 0 = some (some 1) ∧
    some (some (1 : ℝ)) ≠ some (some (0 : ℝ)) := by
  constructor
  · unfold entryAt data_preprocess_A
    rw [if_pos (by decide)]
    show some (normalizeA 3 (buildA [(0, 1, (1 : ℚ)), (0, 2, 2)]) epsilon 0 0) =
      some (some 1)
    unfold normalizeA
    have hd : buildA [(0, 1, (1 : ℚ)), (0, 2, 2)] 0 0 = 0 := by decide
    rw [hd, kernelEntry_zero _ _ (by decide) listVar_concrete epsilon_le_one]
  · simp

/-- C1 (amended): for every valid distance input (in-range indices), the
matrix returned by data_preprocess is symmetric — unconditionally, for all
entries; the diagonal, however, is not zero: whenever no input triple
assigns a self-distance to vertex i, the variance of the nonzero entries is
defined and nonzero, and epsilon ≤ 1, the diagonal entry A[i][i] equals 1. -/
theorem c1_amended_symmetric_unit_diagonal (n : ℕ) (ts : List (ℕ × ℕ × ℚ))
    (eps : ℚ) (i j : ℕ)
    (hok : ts.all (tripleOK n) = true) :
    entryAt n ts eps i j = entryAt n ts eps j i ∧
    ((∀ t ∈ ts, ¬(t.1 = i ∧ t.2.1 = i)) →
      nonzeroEntries n (buildA ts) ≠ [] →
      listVar (nonzeroEntries n (buildA ts)) ≠ 0 →
      eps ≤ 1 → entryAt n ts eps i i = some (some 1)) := by
  unfold entryAt data_preprocess_A
  rw [if_pos hok]
  constructor
  · show some (normalizeA n (buildA ts) eps i j) =
      some (normalizeA n (buildA ts) eps j i)
    unfold normalizeA
    rw [buildA_symm ts i j]
  · intro hdiag hnz hv heps
    have hd : buildA ts i i = 0 := by
      unfold buildA
      exact foldA_untouched ts (fun _ _ => 0) i i
        (fun t htm hc => by rcases hc with hc | hc <;> exact hdiag t htm hc)
    show some (normalizeA n (buildA ts) eps i i) = some (some 1)
    unfold normalizeA
    rw [hd, kernelEntry_zero _ _ hnz hv heps]

/-- C1 witness at the input of the counterexample, with (i, j) = (0, 1):
discharges the validity hypothesis and the diagonal clause's inner
hypotheses at the concrete input. -/
theorem c1_witness :
    ([(0, 1, (1 : ℚ)), (0, 2, 2)].all (tripleOK 3) = true) ∧
    (∀ t ∈ [(0, 1, (1 : ℚ)), (0, 2, 2)], ¬(t.1 = 0 ∧ t.2.1 = 0)) ∧
    nonzeroEntries 3 (buildA [(0, 1, (1 : ℚ)), (0, 2, 2)]) ≠ [] ∧
    listVar (nonzeroEntries 3 (buildA [(0, 1, (1 : ℚ)), (0, 2, 2)])) ≠ 0 ∧
    epsilon ≤ 1 ∧
    (entryAt 3 [(0, 1, (1 : ℚ)), (0, 2, 2)] epsilon 0 1 =
        entryAt 3 [(0, 1, (1 : ℚ)), (0, 2, 2)] epsilon 1 0 ∧
      entryAt 3 [(0, 1, (1 : ℚ)), (0, 2, 2)] epsilon 0 0 = some (some 1)) :=
  ⟨by decide, by decide, by decide, listVar_concrete, epsilon_le_one,
    (c1_amended_symmetric_unit_diagonal 3 [(0, 1, (1 : ℚ)), (0, 2, 2)] epsilon 0 1
      (by decide)).1,
    (c1_amended_symmetric_unit_diagonal 3 [(0, 1, (1 : ℚ)), (0, 2, 2)] epsilon 0 1
      (by decide)).2 (by decide) (by decide) listVar_concrete epsilon_le_one⟩

/-- C10: a vertex pair (i, j) assigned no distance by the input triples
keeps the default entry 0, which the Gaussian kernel maps to exp(0) = 1;
whenever the nonzero-entry variance is defined and nonzero and epsilon ≤ 1,
the returned matrix therefore has A[i][j] = 1. -/
theorem c10_absent_edge_unit_weight (n : ℕ) (ts : List (ℕ × ℕ × ℚ)) (eps : ℚ)
    (i j : ℕ)
    (hok : ts.all (tripleOK n) = true)
    (habs : ∀ t ∈ ts, ¬((t.1 = i ∧ t.2.1 = j) ∨ (t.1 = j ∧ t.2.1 = i)))
    (hnz : nonzeroEntries n (buildA ts) ≠ [])
    (hv : listVar (nonzeroEntries n (buildA ts)) ≠ 0)
    (heps : eps ≤ 1) :
    entryAt n ts eps i j = some (some 1) := by
  have hz : buildA ts i j = 0 := by
    unfold buildA
    exact foldA_untouched ts (fun _ _ => 0) i j habs
  unfold entryAt data_preprocess_A
  rw [if_pos hok]
  show some (normalizeA n (buildA ts) eps i j) = some (some 1)
  unfold normalizeA
  rw [hz, kernelEntry_zero _ _ hnz hv heps]

/-- C10 witness: the pair (1, 2) is assigned no distance by
[(0,1,1), (0,2,2)], and the returned entry A[1][2] is 1 at epsilon = 1/2. -/
theorem c10_witness :
    ([(0, 1, (1 : ℚ)), (0, 2, 2)].all (tripleOK 3) = true) ∧
    (∀ t ∈ [(0, 1, (1 : ℚ)), (0, 2, 2)],
      ¬((t.1 = 1 ∧ t.2.1 = 2) ∨ (t.1 = 2 ∧ t.2.1 = 1))) ∧
    nonzeroEntries 3 (buildA [(0, 1, (1 : ℚ)), (0, 2, 2)]) ≠ [] ∧
    listVar (nonzeroEntries 3 (buildA [(0, 1, (1 : ℚ)), (0, 2, 2)])) ≠ 0 ∧
    epsilon ≤ 1 ∧
    entryAt 3 [(0, 1, (1 : ℚ)), (0, 2, 2)] epsilon 1 2 = some (some 1) :=
  ⟨by decide, by decide, by decide, listVar_concrete, epsilon_le_one,
    c10_absent_edge_unit_weight 3 [(0, 1, (1 : ℚ)), (0, 2, 2)] epsilon 1 2
      (by decide) (by decide) (by decide) listVar_concrete epsilon_le_one⟩

/-- C9 counterexample: with every off-diagonal entry zero (empty distance
input), data_preprocess does return a matrix (numpy computes a NaN variance
and a NaN-filled matrix, raising nothing), and an out-of-range vertex index
raises IndexError, not the InvalidGraphError the claim names (no such error
exists in the code). -/
theorem c9_counterexample :
    exceptIsOk (data_preprocess_A 2 ([] : List (ℕ × ℕ × ℚ)) epsilon) = true ∧
    data_preprocess_A 2 [(5, 0, (1 : ℚ))] epsilon ≠
      Except.error ("InvalidGraphError") := by
  constructor
  · rfl
  · have he : data_preprocess_A 2 [(5, 0, (1 : ℚ))] epsilon =
        Except.error ("IndexError") := by
      unfold data_preprocess_A
      rw [if_neg (by decide)]
    rw [he]
    intro h
    injection h with h2
    exact absurd h2 (by decide)

/-- C9 (amended): the code never raises an InvalidGraphError. When all
entries of the assembled distance matrix are zero, the returned value is a
matrix all of whose entries are NaN (modelled as none) — a matrix is
returned, not an error; when some vertex index is out of range, numpy's
assignment raises IndexError. -/
theorem c9_amended_no_invalid_graph_error (n : ℕ) (ts : List (ℕ × ℕ × ℚ))
    (eps : ℚ) :
    (ts.all (tripleOK n) = true → nonzeroEntries n (buildA ts) = [] →
      data_preprocess_A n ts eps = Except.ok (fun _ _ => none)) ∧
    (ts.all (tripleOK n) = false →
      data_preprocess_A n ts eps = Except.error ("IndexError")) := by
  constructor
  · intro hok hall
    unfold data_preprocess_A
    rw [if_pos hok]
    congr 1
    funext i j
    unfold normalizeA
    rw [hall]
    simp [kernelEntry]
  · intro hbad
    unfold data_preprocess_A
    rw [if_neg (by simp [hbad])]

/-- C9 witness: the empty input returns the all-NaN matrix, and the input
[(5, 0, 1)] on 2 vertices raises IndexError. -/
theorem c9_witness :
    (([] : List (ℕ × ℕ × ℚ)).all (tripleOK 2) = true) ∧
    nonzeroEntries 2 (buildA ([] : List (ℕ × ℕ × ℚ))) = [] ∧
    ([(5, 0, (1 : ℚ))].all (tripleOK 2) = false) ∧
    data_preprocess_A 2 ([] : List (ℕ × ℕ × ℚ)) epsilon =
      Except.ok (fun _ _ => none) ∧
    data_preprocess_A 2 [(5, 0, (1 : ℚ))] epsilon = Except.error ("IndexError") :=
  ⟨by decide, by decide, by decide,
    (c9_amended_no_invalid_graph_error 2 ([] : List (ℕ × ℕ × ℚ)) epsilon).1
      (by decide) (by decide),
    (c9_amended_no_invalid_graph_error 2 [(5, 0, (1 : ℚ))] epsilon).2 (by decide)⟩
